import Mathlib

/-!
Verification development for the IRS 990 schema-normalization extraction
engine (`scripts/xml_extraction.py`).  The XML document model, the text
resolver (`safe_text`), the candidate coalescer (`coalesce`), the three
entity extractors (`parse_return`, `parse_officers`, `parse_grants`), the
document composer (`return_tree`) and the in-memory flattening step of
`export_to_csv` are embedded shallowly; Python exceptions are modelled with
`Except`, Python `None` with `Option`.
-/

namespace Talos

/-- Python exceptions reachable in the extraction code: `TypeError` from
joining a text list containing `None`, and `AttributeError` from calling a
method on `None`. -/
inductive PyError where
  | typeError
  | attributeError
deriving DecidableEq, Repr

/-- An `xml.etree.ElementTree` element: a tag, an optional direct text
(`Element.text` is `None` for an empty element), and a list of children in
document order.  The uniform namespace of the source documents is dropped
since it never disambiguates anything. -/
inductive Element where
  | mk (tag : String) (text : Option String) (children : List Element)

/-- The element's tag name. -/
def Element.tag : Element → String
  | .mk t _ _ => t

/-- The element's direct textual content (`.text` in ElementTree), absent
for an empty element. -/
def Element.text : Element → Option String
  | .mk _ x _ => x

/-- The element's children, in document order. -/
def Element.children : Element → List Element
  | .mk _ _ cs => cs

mutual

/-- All proper descendants of an element in document (preorder) order;
this is the node set scanned by an ElementTree `.//` path. -/
def Element.descendants : Element → List Element
  | .mk _ _ cs => descList cs

/-- Preorder listing of a forest: each root followed by its descendants. -/
def descList : List Element → List Element
  | [] => []
  | c :: rest => c :: (Element.descendants c ++ descList rest)

end

/-- `root.findall('.//T', ns)`: every descendant tagged `T`, document
order. -/
def Element.findallDesc (root : Element) (t : String) : List Element :=
  root.descendants.filter (fun e => e.tag == t)

/-- `root.find('.//T', ns)`: first descendant tagged `T`, or `None`. -/
def Element.findDesc (root : Element) (t : String) : Option Element :=
  (root.findallDesc t).head?

/-- Children of `e` tagged `t`, document order. -/
def Element.childrenTagged (e : Element) (t : String) : List Element :=
  e.children.filter (fun c => c.tag == t)

/-- `e.find('T', ns)` with a plain child tag: first child tagged `t`. -/
def Element.findChild (e : Element) (t : String) : Option Element :=
  (e.childrenTagged t).head?

/-- `root.findall('.//A/B', ns)`: children tagged `b` of every descendant
tagged `a`. -/
def Element.findallDescChild (root : Element) (a b : String) : List Element :=
  (root.findallDesc a).flatMap (fun e => e.childrenTagged b)

/-- `root.find('.//A/B', ns)`. -/
def Element.findDescChild (root : Element) (a b : String) : Option Element :=
  (root.findallDescChild a b).head?

/-- `root.findall('.//A/*', ns)`: all children of every descendant tagged
`a`. -/
def Element.findallDescStar (root : Element) (a : String) : List Element :=
  (root.findallDesc a).flatMap Element.children

/-- `root.find('.//A/*', ns)`. -/
def Element.findDescStar (root : Element) (a : String) : Option Element :=
  (root.findallDescStar a).head?

/-- `root.findall('.//A/B/*', ns)`: all children of the `.//A/B` matches. -/
def Element.findallDescChildStar (root : Element) (a b : String) : List Element :=
  (root.findallDescChild a b).flatMap Element.children

/-- The argument shapes `safe_text` is called with: a `find` result that
found nothing (`None`), a `find` result that found one element, or a
`findall` result (a list, possibly empty). -/
inductive ETArg where
  | noMatch
  | single (e : Element)
  | multiple (es : List Element)

/-- Wraps a Python `find` result (`Element` or `None`) for `safe_text`. -/
def argOfFind : Option Element → ETArg
  | Option.none => .noMatch
  | Option.some e => .single e

/-- Wraps a Python `findall` result (always a list) for `safe_text`. -/
def argOfFindall (es : List Element) : ETArg :=
  .multiple es

/-- The texts of a list of elements: `some` of the list when every element
has text, `none` when any `e.text` is `None` (the case in which Python's
`' '.join` raises `TypeError`). -/
def textsOf : List Element → Option (List String)
  | [] => some []
  | e :: rest =>
    match e.text, textsOf rest with
    | some t, some ts => some (t :: ts)
    | _, _ => none

/-- `safe_text(elements)`: `''` when `elements is None`; `elements.text`
when a single element (possibly `None`); the texts joined with one space
when a list, raising `TypeError` when a listed element has no text. -/
def safe_text : ETArg → Except PyError (Option String)
  | .noMatch => .ok (some "")
  | .single e => .ok e.text
  | .multiple es =>
    match textsOf es with
    | some ts => .ok (some (String.intercalate " " ts))
    | none => .error .typeError

/-- `coalesce(*values)`: the first non-`None` value, or `None` if all are
`None`. -/
def coalesce (values : List (Option String)) : Option String :=
  values.findSome? id

/-- The dictionary built by `parse_return`: one Return Record. -/
structure ReturnFields where
  src_fname : String
  return_type : Option String
  ein : Option String
  business_name : Option String
  business_address : Option String
  preparer_firm : Option String
  preparer_address : Option String
  tax_year : Option String
deriving DecidableEq, Repr

/-- `parse_return(root, fname)`: packages an XML return's header data;
each field coalesces its candidate lookups in the source's order.  A
`TypeError` from a joined lookup aborts the whole extraction. -/
def parse_return (root : Element) (fname : String) : Except PyError ReturnFields := do
  let return_type := coalesce [
    ← safe_text (argOfFind (root.findDesc "ReturnTypeCd")),
    ← safe_text (argOfFind (root.findDesc "ReturnType"))]
  let ein ← safe_text (argOfFind (root.findDescChild "Filer" "EIN"))
  let business_name := coalesce [
    ← safe_text (argOfFind (root.findallDescChildStar "Filer" "BusinessName").head?),
    ← safe_text (argOfFind (root.findallDescChildStar "Filer" "Name").head?)]
  let business_address ← safe_text (argOfFindall (root.findallDescChildStar "Filer" "USAddress"))
  let preparer_firm := coalesce [
    ← safe_text (argOfFind (root.findDescStar "PreparerFirmName")),
    ← safe_text (argOfFind (root.findDescStar "PreparerFirmBusinessName"))]
  let preparer_address := coalesce [
    ← safe_text (argOfFindall (root.findallDescStar "PreparerUSAddress")),
    ← safe_text (argOfFindall (root.findallDescStar "PreparerFirmUSAddress"))]
  let tax_year := coalesce [
    ← safe_text (argOfFind (root.findDesc "TaxYr")),
    ← safe_text (argOfFind (root.findDesc "TaxYear"))]
  return ⟨fname, return_type, ein, business_name, business_address,
          preparer_firm, preparer_address, tax_year⟩

/-- The dictionary built per officer by `parse_officers`; `src_fname` is
absent until the flattening step of `export_to_csv` stamps it. -/
structure OfficerFields where
  name : Option String
  title : Option String
  address : Option String
  src_fname : Option String
deriving DecidableEq, Repr

/-- The four officer tag-name variants scanned by `parse_officers`, with
all matches concatenated in the source's scan order. -/
def officer_variants (root : Element) : List Element :=
  root.findallDesc "OfficerDirTrstKeyEmplGrp"
    ++ root.findallDesc "OfficerDirectorTrusteeEmplGrp"
    ++ root.findallDesc "OfcrDirTrusteesOrKeyEmployee"
    ++ root.findallDesc "Form990PartVIISectionAGrp"

/-- The per-officer dictionary of the `for officer in officers` loop body. -/
def officer_fields (officer : Element) : Except PyError OfficerFields := do
  let name := coalesce [
    ← safe_text (argOfFind (officer.findChild "PersonNm")),
    ← safe_text (argOfFindall (officer.findallDescStar "BusinessName")),
    ← safe_text (argOfFind (officer.findChild "PersonName"))]
  let title := coalesce [
    ← safe_text (argOfFind (officer.findChild "TitleTxt")),
    ← safe_text (argOfFind (officer.findChild "Title"))]
  let address ← safe_text (argOfFindall (officer.findallDescStar "USAddress"))
  return ⟨name, title, address, Option.none⟩

/-- The `records` accumulation loop shared by `parse_officers` and
`parse_grants`: one record appended per scanned element, the first raised
exception propagating out with no record list produced. -/
def extract_list {β : Type} (f : Element → Except PyError β) :
    List Element → Except PyError (List β)
  | [] => .ok []
  | e :: rest =>
    match f e, extract_list f rest with
    | .ok r, .ok rs => .ok (r :: rs)
    | .error err, _ => .error err
    | .ok _, .error err => .error err

/-- The header-level officer fallback of `parse_officers`: try
`.//BusinessOfficerGrp`, else `.//Officer`; when neither exists the code
calls `.find` on `None` and raises `AttributeError`. -/
def fallback_officer (root : Element) : Except PyError (List OfficerFields) :=
  match (match root.findDesc "BusinessOfficerGrp" with
         | Option.some o => Option.some o
         | Option.none => root.findDesc "Officer") with
  | Option.none => .error .attributeError
  | Option.some officer => do
    let name := coalesce [
      ← safe_text (argOfFind (officer.findChild "PersonNm")),
      ← safe_text (argOfFind (officer.findChild "Name"))]
    let title := coalesce [
      ← safe_text (argOfFind (officer.findChild "PersonTitleTxt")),
      ← safe_text (argOfFind (officer.findChild "Title"))]
    return [⟨name, title, some "", Option.none⟩]

/-- `parse_officers(root, fname)`: one record per match of the four-variant
scan; the header-level fallback runs only when `records` is empty
(`if not records:`). -/
def parse_officers (root : Element) (fname : String) :
    Except PyError (List OfficerFields) :=
  match extract_list officer_fields (officer_variants root) with
  | .error err => .error err
  | .ok records => if records.isEmpty then fallback_officer root else .ok records

/-- The dictionary built per grant by `parse_grants`; `src_fname` is absent
until the flattening step of `export_to_csv` stamps it. -/
structure GrantFields where
  recipient_name : Option String
  recipient_address : Option String
  purpose : Option String
  amount : Option String
  src_fname : Option String
deriving DecidableEq, Repr

/-- The repeated grant structures scanned by `parse_grants`. -/
def grants_scan (root : Element) : List Element :=
  root.findallDesc "GrantOrContributionPdDurYrGrp"

/-- The per-grant dictionary of the `for grant in grants` loop body. -/
def grant_fields (grant : Element) : Except PyError GrantFields := do
  let recipient_name := coalesce [
    ← safe_text (argOfFind (grant.findChild "RecipientPersonNm")),
    ← safe_text (argOfFindall (grant.findallDescStar "RecipientBusinessName"))]
  let recipient_address ← safe_text (argOfFindall (grant.findallDescStar "RecipientUSAddress"))
  let purpose ← safe_text (argOfFind (grant.findDesc "GrantOrContributionPurposeTxt"))
  let amount ← safe_text (argOfFind (grant.findChild "Amt"))
  return ⟨recipient_name, recipient_address, purpose, amount, Option.none⟩

/-- `parse_grants(root, fname)`: one record per repeated grant structure,
document order, no fallback. -/
def parse_grants (root : Element) (fname : String) :
    Except PyError (List GrantFields) :=
  extract_list grant_fields (grants_scan root)

/-- The composite record built by `return_tree`: the Return Record fields
with the nested officer and grant collections. -/
structure TreeRec where
  ret : ReturnFields
  officers : List OfficerFields
  grants : List GrantFields
deriving DecidableEq, Repr

/-- `return_tree(root, fname)`: the document composer. -/
def return_tree (root : Element) (fname : String) : Except PyError TreeRec := do
  let r ← parse_return root fname
  let os ← parse_officers root fname
  let gs ← parse_grants root fname
  return ⟨r, os, gs⟩

/-- The statement `o['src_fname'] = r['src_fname']` on an officer dict. -/
def stamp_officer (fname : String) (o : OfficerFields) : OfficerFields :=
  ⟨o.name, o.title, o.address, some fname⟩

/-- The statement `g['src_fname'] = r['src_fname']` on a grant dict. -/
def stamp_grant (fname : String) (g : GrantFields) : GrantFields :=
  ⟨g.recipient_name, g.recipient_address, g.purpose, g.amount, some fname⟩

/-- Effect of the `export_to_csv` flattening loop on one composite record:
every nested officer and grant dict is stamped in place with the parent's
`src_fname`. -/
def flatten_rec (r : TreeRec) : TreeRec :=
  ⟨r.ret, r.officers.map (stamp_officer r.ret.src_fname),
   r.grants.map (stamp_grant r.ret.src_fname)⟩

/-- The in-memory flattening step of `export_to_csv` (its loop over
`returns`), with the dict mutations made explicit: returns the post-loop
state of `data_tree` together with the `returns`, `officers` and `grants`
collections handed to the CSV writer. -/
def export_flatten (tree : List TreeRec) :
    List TreeRec × List ReturnFields × List OfficerFields × List GrantFields :=
  let tree2 := tree.map flatten_rec
  (tree2, tree2.map TreeRec.ret,
   tree2.flatMap TreeRec.officers, tree2.flatMap TreeRec.grants)

/-- A document holding only a legacy `ReturnType` element (text `"990"`)
and no `ReturnTypeCd`. -/
def docC1 : Element := .mk "Return" Option.none [.mk "ReturnType" (some "990") []]

/-- A document holding only a legacy `ReturnType` element (text `"990EZ"`)
and no `ReturnTypeCd`. -/
def docC2 : Element := .mk "Return" Option.none [.mk "ReturnType" (some "990EZ") []]

/-- A document with zero officer structures: no repeated officer variant,
no `BusinessOfficerGrp`, no `Officer`. -/
def docC3 : Element := .mk "Return" Option.none [.mk "ReturnHeader" Option.none []]

/-- A document with one repeated officer structure (name and title). -/
def docC5 : Element := .mk "Return" Option.none
  [.mk "OfficerDirTrstKeyEmplGrp" Option.none
    [.mk "PersonNm" (some "Jane Doe") [], .mk "TitleTxt" (some "CFO") []]]

/-- A document with no repeated officer structures but a header-level
`BusinessOfficerGrp`. -/
def docC5b : Element := .mk "Return" Option.none
  [.mk "BusinessOfficerGrp" Option.none [.mk "PersonNm" (some "Jo Smith") []]]

/-- A one-document batch whose composite record nests one officer dict
that does not yet carry a `src_fname` key. -/
def treeC6 : List TreeRec :=
  [⟨⟨"doc6.xml", some "990", some "", some "", some "", some "", some "", some ""⟩,
    [⟨some "Jane Doe", some "CFO", some "", Option.none⟩], []⟩]

/-- A document whose `Filer/USAddress` has a sub-element with no text, the
input on which the joined address lookup raises `TypeError`. -/
def docC7 : Element := .mk "Return" Option.none
  [.mk "ReturnData" Option.none
    [.mk "Filer" Option.none
      [.mk "USAddress" Option.none [.mk "AddressLine1Txt" Option.none []]]]]

/-- The Return Record produced for an empty document named `doc7w.xml`. -/
def retW7 : ReturnFields :=
  ⟨"doc7w.xml", some "", some "", some "", some "", some "", some "", some ""⟩

/-- A document with two repeated grant structures, document order. -/
def docC8 : Element := .mk "Return" Option.none
  [.mk "GrantOrContributionPdDurYrGrp" Option.none [.mk "Amt" (some "100") []],
   .mk "GrantOrContributionPdDurYrGrp" Option.none [.mk "Amt" (some "250") []]]

/-- Inversion for a successful `Except` bind: the first computation
succeeded and the continuation succeeded on its value. -/
theorem except_bind_ok {α β : Type} {x : Except PyError α} {f : α → Except PyError β} {b : β}
    (h : x >>= f = .ok b) : ∃ a, x = .ok a ∧ f a = .ok b := by
  cases x with
  | error e => exact absurd h (by simp [Bind.bind, Except.bind])
  | ok a => exact ⟨a, rfl, by simpa [Bind.bind, Except.bind] using h⟩

/-- Whenever `parse_return` completes, the record it hands back carries the
archive-member name it was given. -/
theorem parse_return_ok_fname (root : Element) (fname : String) (f : ReturnFields)
    (h : parse_return root fname = .ok f) : f.src_fname = fname := by
  unfold parse_return at h
  obtain ⟨v1, -, h⟩ := except_bind_ok h
  obtain ⟨v2, -, h⟩ := except_bind_ok h
  obtain ⟨v3, -, h⟩ := except_bind_ok h
  obtain ⟨v4, -, h⟩ := except_bind_ok h
  obtain ⟨v5, -, h⟩ := except_bind_ok h
  obtain ⟨v6, -, h⟩ := except_bind_ok h
  obtain ⟨v7, -, h⟩ := except_bind_ok h
  obtain ⟨v8, -, h⟩ := except_bind_ok h
  obtain ⟨v9, -, h⟩ := except_bind_ok h
  obtain ⟨v10, -, h⟩ := except_bind_ok h
  obtain ⟨v11, -, h⟩ := except_bind_ok h
  obtain ⟨v12, -, h⟩ := except_bind_ok h
  cases h
  rfl

/-- A completed extraction loop yields exactly one record per scanned
element. -/
theorem extract_list_length {β : Type} (f : Element → Except PyError β) :
    ∀ (l : List Element) (bs : List β), extract_list f l = .ok bs → bs.length = l.length := by
  intro l
  induction l with
  | nil => intro bs h; simp only [extract_list, Except.ok.injEq] at h; simp [← h]
  | cons e rest ih =>
    intro bs h
    simp only [extract_list] at h
    cases hfe : f e with
    | error err => rw [hfe] at h; simp at h
    | ok r =>
      rw [hfe] at h
      cases hrest : extract_list f rest with
      | error err => rw [hrest] at h; simp at h
      | ok rs =>
        rw [hrest] at h
        simp only [Except.ok.injEq] at h
        subst h
        simp [ih rs hrest]

/-- When the four-variant scan finds nothing, `parse_officers` is exactly
the header-level fallback. -/
theorem parse_officers_empty_scan (root : Element) (fname : String)
    (h : (officer_variants root).isEmpty = true) :
    parse_officers root fname = fallback_officer root := by
  rw [List.isEmpty_iff] at h
  simp [parse_officers, h, extract_list]

/-- When the four-variant scan finds something, `parse_officers` is exactly
the extraction loop over the matches; the fallback is unreachable. -/
theorem parse_officers_nonempty_scan (root : Element) (fname : String)
    (h : (officer_variants root).isEmpty = false) :
    parse_officers root fname = extract_list officer_fields (officer_variants root) := by
  unfold parse_officers
  cases hx : extract_list officer_fields (officer_variants root) with
  | error err => rfl
  | ok records =>
    have hlen := extract_list_length _ _ _ hx
    have hne : records.isEmpty = false := by
      cases records with
      | nil =>
        cases hv : officer_variants root with
        | nil => rw [hv] at h; simp at h
        | cons a l => rw [hv] at hlen; simp at hlen
      | cons r rs => rfl
    simp [hne]

/-- When every listed element carries text, `textsOf` collects exactly
those texts. -/
theorem textsOf_all_some (es : List Element) :
    ∀ ts : List String, es.map Element.text = ts.map some → textsOf es = some ts := by
  induction es with
  | nil =>
    intro ts h
    cases ts with
    | nil => rfl
    | cons t ts2 => simp at h
  | cons e rest ih =>
    intro ts h
    cases ts with
    | nil => simp at h
    | cons t ts2 =>
      simp only [List.map_cons, List.cons.injEq] at h
      simp [textsOf, h.1, ih ts2 h.2]

/-- When some listed element has no text, `textsOf` is absent. -/
theorem textsOf_has_none (es : List Element) (h : Option.none ∈ es.map Element.text) :
    textsOf es = Option.none := by
  induction es with
  | nil => simp at h
  | cons e rest ih =>
    simp only [List.map_cons, List.mem_cons] at h
    cases h with
    | inl h0 => simp [textsOf, ← h0]
    | inr h0 => cases hx : e.text <;> simp [textsOf, hx, ih h0]

/-- Stamping a composite record's children twice is the same as stamping
them once. -/
theorem flatten_rec_idem (r : TreeRec) : flatten_rec (flatten_rec r) = flatten_rec r := by
  cases r with
  | mk ret os gs =>
    simp [flatten_rec, List.map_map]
    exact ⟨fun a _ => rfl, fun a _ => rfl⟩

/-- C1: the claim fails on the code.  For a document whose first
candidate lookup (`ReturnTypeCd`) finds nothing while the second
(`ReturnType`) holds `"990"`, `coalesce` does not fall through: `safe_text`
maps the missing lookup to `''`, which `coalesce` treats as present, so
`return_type` is `''` rather than the first present candidate `"990"`. -/
theorem claim1_coalesce_missing_no_fallthrough :
    docC1.findDesc "ReturnTypeCd" = Option.none ∧
    (docC1.findDesc "ReturnType").map Element.text = some (some "990") ∧
    parse_return docC1 "doc1.xml"
      = .ok ⟨"doc1.xml", some "", some "", some "", some "", some "", some "", some ""⟩ :=
  ⟨rfl, rfl, rfl⟩

/-- C2: the claim fails on the code.  A document with only a legacy
`ReturnType` element (text `"990EZ"`, no `ReturnTypeCd`) yields
`return_type = ''`, not the legacy element's text. -/
theorem claim2_legacy_return_type_ignored :
    docC2.findDesc "ReturnTypeCd" = Option.none ∧
    (docC2.findDesc "ReturnType").map Element.text = some (some "990EZ") ∧
    (parse_return docC2 "doc2.xml").map ReturnFields.return_type = .ok (some "") ∧
    (some "" : Option String) ≠ some "990EZ" :=
  ⟨rfl, rfl, rfl, by decide⟩

/-- C3: the claim fails on the code.  On a document with zero repeated
officer structures and no header-level officer structure of either tag,
`parse_officers` raises `AttributeError` (`None.find`) instead of
returning zero Officer Records. -/
theorem claim3_missing_officer_fallback_raises :
    officer_variants docC3 = [] ∧
    docC3.findDesc "BusinessOfficerGrp" = Option.none ∧
    docC3.findDesc "Officer" = Option.none ∧
    parse_officers docC3 "doc3.xml" = .error PyError.attributeError :=
  ⟨rfl, rfl, rfl, rfl⟩

/-- C4: the Text Resolver maps "nothing found" (a `find` miss or an empty
`findall`) to the absence value `''` — no error, no placeholder — and maps
a single located element to that element's direct text, unmodified. -/
theorem claim4_resolver_absent_and_single :
    (safe_text (argOfFind Option.none) = .ok (some "") ∧
     safe_text (argOfFindall []) = .ok (some "")) ∧
    ∀ e : Element, safe_text (ETArg.single e) = .ok e.text :=
  ⟨⟨rfl, rfl⟩, fun e => rfl⟩

/-- C5: the header-level fallback runs exactly when the combined
four-variant scan yields zero matches; when matches exist the extractor is
the per-occurrence loop (the fallback is never consulted) and a completed
run yields one Officer Record per occurrence. -/
theorem claim5_officers_fallback_iff_scan_empty (root : Element) (fname : String) :
    ((officer_variants root).isEmpty = true →
      parse_officers root fname = fallback_officer root) ∧
    ((officer_variants root).isEmpty = false →
      parse_officers root fname = extract_list officer_fields (officer_variants root)) ∧
    (∀ recs, parse_officers root fname = .ok recs →
      (officer_variants root).isEmpty = false →
      recs.length = (officer_variants root).length) := by
  refine ⟨parse_officers_empty_scan root fname, parse_officers_nonempty_scan root fname, ?_⟩
  intro recs hok hne
  rw [parse_officers_nonempty_scan root fname hne] at hok
  exact extract_list_length _ _ _ hok

/-- C5 witness: both branches at concrete documents — a document with a
header officer only takes the fallback, a document with one repeated
officer structure takes the loop and yields exactly one record. -/
theorem claim5_witness :
    parse_officers docC5b "b.xml" = fallback_officer docC5b ∧
    parse_officers docC5 "a.xml" = extract_list officer_fields (officer_variants docC5) ∧
    ([⟨some "Jane Doe", some "CFO", some "", Option.none⟩] : List OfficerFields).length
      = (officer_variants docC5).length :=
  ⟨(claim5_officers_fallback_iff_scan_empty docC5b "b.xml").1 rfl,
   (claim5_officers_fallback_iff_scan_empty docC5 "a.xml").2.1 rfl,
   (claim5_officers_fallback_iff_scan_empty docC5 "a.xml").2.2 _ rfl rfl⟩

/-- C6 counterexample: the flattening loop is not side-effect-free — it
mutates the input composite records, stamping each nested officer dict
with the parent's `src_fname`, so the post-loop `data_tree` differs from
the input. -/
theorem claim6_flatten_mutates_input : (export_flatten treeC6).1 ≠ treeC6 := by decide

/-- C6 amended: flattening is order-preserving (source document order,
then intra-document extraction order, no reordering or deduplication) and
idempotent — flattening the already-flattened batch changes nothing — but
the input records are mutated, as the first component shows. -/
theorem claim6_flatten_order_idempotent (tree : List TreeRec) :
    export_flatten ((export_flatten tree).1) = export_flatten tree ∧
    (export_flatten tree).2.1 = tree.map TreeRec.ret ∧
    (export_flatten tree).2.2.1
      = tree.flatMap (fun r => r.officers.map (stamp_officer r.ret.src_fname)) ∧
    (export_flatten tree).2.2.2
      = tree.flatMap (fun r => r.grants.map (stamp_grant r.ret.src_fname)) := by
  have hidem : (tree.map flatten_rec).map flatten_rec = tree.map flatten_rec := by
    rw [List.map_map]
    exact List.map_congr_left (fun r _ => flatten_rec_idem r)
  refine ⟨?_, ?_, ?_, ?_⟩
  · simp [export_flatten, hidem]
  · simp only [export_flatten, List.map_map]
    exact List.map_congr_left (fun r _ => rfl)
  · simp only [export_flatten, List.flatMap_map]
    congr 1
  · simp only [export_flatten, List.flatMap_map]
    congr 1

/-- C7 counterexample: a parseable document on which the Return-Header
Extractor produces no Return Record at all — the joined `Filer/USAddress`
lookup meets a sub-element without text and raises `TypeError`. -/
theorem claim7_joined_lookup_raises :
    parse_return docC7 "doc7.xml" = .error PyError.typeError := rfl

/-- C7 amended: whenever `parse_return` completes (no `TypeError` from a
joined lookup), it yields exactly one Return Record whose `src_fname` is
the archive-member name; in particular a document lacking every candidate
still yields a record, with every field the empty string. -/
theorem claim7_return_record_identity :
    (∀ (root : Element) (fname : String) (f : ReturnFields),
       parse_return root fname = .ok f → f.src_fname = fname) ∧
    (∀ (tag : String) (txt : Option String) (fname : String),
       parse_return (Element.mk tag txt []) fname
         = .ok ⟨fname, some "", some "", some "", some "", some "", some "", some ""⟩) :=
  ⟨parse_return_ok_fname, fun tag txt fname => rfl⟩

/-- C7 witness: the record extracted from an empty document named
`doc7w.xml` carries that name. -/
theorem claim7_witness : retW7.src_fname = "doc7w.xml" :=
  claim7_return_record_identity.1 (Element.mk "Return" Option.none []) "doc7w.xml" retW7 rfl

/-- C8: the Grant-Set Extractor is exactly the per-occurrence loop over
the repeated grant structures in document order — no fallback path — so
zero matches yield zero records and a completed run yields one Grant
Record per occurrence. -/
theorem claim8_grants_one_per_occurrence (root : Element) (fname : String) :
    parse_grants root fname = extract_list grant_fields (grants_scan root) ∧
    (grants_scan root = [] → parse_grants root fname = .ok []) ∧
    (∀ recs, parse_grants root fname = .ok recs → recs.length = (grants_scan root).length) := by
  refine ⟨rfl, ?_, ?_⟩
  · intro h
    simp [parse_grants, h, extract_list]
  · intro recs h
    exact extract_list_length _ _ _ h

/-- C8 witness: a grant-free document yields zero records, and the
two-grant document yields exactly two records. -/
theorem claim8_witness :
    parse_grants (Element.mk "Return" Option.none []) "e.xml" = .ok [] ∧
    ([⟨some "", some "", some "", some "100", Option.none⟩,
      ⟨some "", some "", some "", some "250", Option.none⟩] : List GrantFields).length
      = (grants_scan docC8).length :=
  ⟨(claim8_grants_one_per_occurrence (Element.mk "Return" Option.none []) "e.xml").2.1 rfl,
   (claim8_grants_one_per_occurrence docC8 "g.xml").2.2 _ rfl⟩

/-- C9: on a list of two or more located elements each carrying text, the
Text Resolver joins the texts with a single space, preserving order and
count. -/
theorem claim9_join_space_separator (es : List Element) (ts : List String)
    (hlen : 2 ≤ es.length) (htext : es.map Element.text = ts.map some) :
    safe_text (ETArg.multiple es) = .ok (some (String.intercalate " " ts)) := by
  simp [safe_text, textsOf_all_some es ts htext]

/-- C9 witness: joining `["123 Main St", "Suite 4"]` yields
`"123 Main St Suite 4"`. -/
theorem claim9_witness :
    safe_text (ETArg.multiple
      [Element.mk "AddressLine1Txt" (some "123 Main St") [],
       Element.mk "AddressLine2Txt" (some "Suite 4") []])
      = .ok (some "123 Main St Suite 4") :=
  claim9_join_space_separator _ ["123 Main St", "Suite 4"] (by decide) rfl

/-- C10: the space-join of the Text Resolver has a reachable error branch:
if any matched sub-element's text is absent, the join raises `TypeError`
instead of producing a value. -/
theorem claim10_join_typeerror_on_missing_text (es : List Element)
    (h : Option.none ∈ es.map Element.text) :
    safe_text (ETArg.multiple es) = .error PyError.typeError := by
  simp [safe_text, textsOf_has_none es h]

/-- C10 witness: a two-element list whose second element has no text makes
the join raise `TypeError`. -/
theorem claim10_witness :
    safe_text (ETArg.multiple
      [Element.mk "AddressLine1Txt" (some "123 Main St") [],
       Element.mk "AddressLine2" Option.none []]) = .error PyError.typeError :=
  claim10_join_typeerror_on_missing_text _ (by decide)

end Talos
